import Mathlib

set_option maxHeartbeats 1000000
set_option maxRecDepth 10000

/-!
Verification development for the webhook product-replication handlers of this
repository.  The repository contains several revisions of one Next.js route
handler (`POST`): three in `src/app/api/replicate-product/route.ts` and two
further revisions (`part_000`, `part_001`) that add variation creation, an
idempotency guard and a price-markup rule.  Below, each handler is embedded as
a pure Lean function from a configuration, an oracle describing the answers of
the remote catalog API, a JSON-parse oracle and the inbound request to the
pair (list of outbound calls issued, HTTP response or uncaught exception).

The cryptographic signature check is embedded for real: SHA-256, HMAC and
base64 are implemented below on lists of byte values (Nat), mirroring
Node `crypto.createHmac("sha256", secret).update(rawBody, "utf8").digest("base64")`.
-/

/-- Truncation to a 32-bit word. -/
def w32 (n : Nat) : Nat := n % 4294967296

/-- Right rotation of a 32-bit word. -/
def rotr32 (x n : Nat) : Nat := w32 ((x >>> n) ||| (x <<< (32 - n)))

/-- SHA-256 big sigma 0. -/
def bigSigma0 (x : Nat) : Nat := rotr32 x 2 ^^^ rotr32 x 13 ^^^ rotr32 x 22

/-- SHA-256 big sigma 1. -/
def bigSigma1 (x : Nat) : Nat := rotr32 x 6 ^^^ rotr32 x 11 ^^^ rotr32 x 25

/-- SHA-256 small sigma 0. -/
def smallSigma0 (x : Nat) : Nat := rotr32 x 7 ^^^ rotr32 x 18 ^^^ (x >>> 3)

/-- SHA-256 small sigma 1. -/
def smallSigma1 (x : Nat) : Nat := rotr32 x 17 ^^^ rotr32 x 19 ^^^ (x >>> 10)

/-- SHA-256 choice function (the complement is taken inside 32 bits). -/
def chF (x y z : Nat) : Nat := (x &&& y) ^^^ ((x ^^^ 4294967295) &&& z)

/-- SHA-256 majority function. -/
def majF (x y z : Nat) : Nat := (x &&& y) ^^^ (x &&& z) ^^^ (y &&& z)

/-- SHA-256 round constants (the first 32 bits of the fractional parts of
the cube roots of the first 64 primes), written in decimal. -/
def sha256K : List Nat :=
  [1116352408, 1899447441, 3049323471, 3921009573, 961987163,
   1508970993, 2453635748, 2870763221, 3624381080, 310598401,
   607225278, 1426881987, 1925078388, 2162078206, 2614888103,
   3248222580, 3835390401, 4022224774, 264347078, 604807628,
   770255983, 1249150122, 1555081692, 1996064986, 2554220882,
   2821834349, 2952996808, 3210313671, 3336571891, 3584528711,
   113926993, 338241895, 666307205, 773529912, 1294757372,
   1396182291, 1695183700, 1986661051, 2177026350, 2456956037,
   2730485921, 2820302411, 3259730800, 3345764771, 3516065817,
   3600352804, 4094571909, 275423344, 430227734, 506948616,
   659060556, 883997877, 958139571, 1322822218, 1537002063,
   1747873779, 1955562222, 2024104815, 2227730452, 2361852424,
   2428436474, 2756734187, 3204031479, 3329325298]

/-- Working state of the SHA-256 compression function. -/
structure Sha256State where
  a : Nat
  b : Nat
  c : Nat
  d : Nat
  e : Nat
  f : Nat
  g : Nat
  h : Nat
deriving Repr, DecidableEq

/-- SHA-256 initial hash value. -/
def sha256Init : Sha256State :=
  ⟨1779033703, 3144134277, 1013904242, 2773480762,
   1359893119, 2600822924, 528734635, 1541459225⟩

/-- Big-endian 32-bit word assembled from four bytes of a block. -/
def msgWord (block : List Nat) (i : Nat) : Nat :=
  (block.getD (4 * i) 0) <<< 24 ||| (block.getD (4 * i + 1) 0) <<< 16 |||
  (block.getD (4 * i + 2) 0) <<< 8 ||| block.getD (4 * i + 3) 0

/-- The 64-entry message schedule of one 64-byte block. -/
def sha256Schedule (block : List Nat) : List Nat :=
  let ws0 := (List.range 16).map (msgWord block)
  (List.range 48).foldl (fun ws _ =>
    let n := ws.length
    ws ++ [w32 (smallSigma1 (ws.getD (n - 2) 0) + ws.getD (n - 7) 0 +
                smallSigma0 (ws.getD (n - 15) 0) + ws.getD (n - 16) 0)]) ws0

/-- One SHA-256 compression round; kw is the sum of round constant and schedule word. -/
def sha256Round (st : Sha256State) (kw : Nat) : Sha256State :=
  let t1 := w32 (st.h + bigSigma1 st.e + chF st.e st.f st.g + kw)
  let t2 := w32 (bigSigma0 st.a + majF st.a st.b st.c)
  ⟨w32 (t1 + t2), st.a, st.b, st.c, w32 (st.d + t1), st.e, st.f, st.g⟩

/-- Processing of one 64-byte block. -/
def sha256Block (st : Sha256State) (block : List Nat) : Sha256State :=
  let ws := sha256Schedule block
  let t := (sha256K.zip ws).foldl (fun s p => sha256Round s (w32 (p.1 + p.2))) st
  ⟨w32 (st.a + t.a), w32 (st.b + t.b), w32 (st.c + t.c), w32 (st.d + t.d),
   w32 (st.e + t.e), w32 (st.f + t.f), w32 (st.g + t.g), w32 (st.h + t.h)⟩

/-- Big-endian bytes of a 32-bit word. -/
def bytesBE4 (v : Nat) : List Nat :=
  [(v >>> 24) % 256, (v >>> 16) % 256, (v >>> 8) % 256, v % 256]

/-- Big-endian bytes of a 64-bit word. -/
def bytesBE8 (v : Nat) : List Nat :=
  [(v >>> 56) % 256, (v >>> 48) % 256, (v >>> 40) % 256, (v >>> 32) % 256,
   (v >>> 24) % 256, (v >>> 16) % 256, (v >>> 8) % 256, v % 256]

/-- SHA-256 message padding: a 0x80 byte, zeros, and the 64-bit bit length. -/
def sha256Pad (msg : List Nat) : List Nat :=
  msg ++ [128] ++ List.replicate ((119 - msg.length % 64) % 64) 0 ++ bytesBE8 (8 * msg.length)

/-- Splitting a byte list into 64-byte chunks, structurally recursive on a
fuel argument so that it reduces definitionally; every nonempty step consumes
at least one element, so a fuel of the list length always suffices. -/
def chunks64Fuel : Nat → List Nat → List (List Nat)
  | 0, _ => []
  | fuel + 1, l => if l.isEmpty then [] else l.take 64 :: chunks64Fuel fuel (l.drop 64)

/-- Splitting a byte list into 64-byte chunks. -/
def chunks64 (l : List Nat) : List (List Nat) := chunks64Fuel l.length l

/-- SHA-256 of a byte list, as a 32-byte list. -/
def sha256 (msg : List Nat) : List Nat :=
  let fin := (chunks64 (sha256Pad msg)).foldl sha256Block sha256Init
  bytesBE4 fin.a ++ bytesBE4 fin.b ++ bytesBE4 fin.c ++ bytesBE4 fin.d ++
  bytesBE4 fin.e ++ bytesBE4 fin.f ++ bytesBE4 fin.g ++ bytesBE4 fin.h

/-- HMAC-SHA256 keyed hash of a byte list. -/
def hmacSha256 (key msg : List Nat) : List Nat :=
  let key0 := if 64 < key.length then sha256 key else key
  let keyPad := key0 ++ List.replicate (64 - key0.length) 0
  let inner := sha256 (keyPad.map (fun b => b ^^^ 0x36) ++ msg)
  sha256 (keyPad.map (fun b => b ^^^ 0x5c) ++ inner)

/-- The base64 alphabet. -/
def b64Char (n : Nat) : Char :=
  "ABCDEFGHIJKLMNOPQRSTUVWXYZabcdefghijklmnopqrstuvwxyz0123456789+/".toList.getD n 'A'

/-- Standard base64 encoding of a byte list, with padding. -/
def base64Encode : List Nat → String
  | [] => ""
  | [b1] =>
    String.mk [b64Char (b1 >>> 2), b64Char ((b1 &&& 3) <<< 4), '=', '=']
  | [b1, b2] =>
    String.mk [b64Char (b1 >>> 2), b64Char (((b1 &&& 3) <<< 4) ||| (b2 >>> 4)),
               b64Char ((b2 &&& 15) <<< 2), '=']
  | b1 :: b2 :: b3 :: rest =>
    String.mk [b64Char (b1 >>> 2), b64Char (((b1 &&& 3) <<< 4) ||| (b2 >>> 4)),
               b64Char (((b2 &&& 15) <<< 2) ||| (b3 >>> 6)), b64Char (b3 &&& 63)] ++
    base64Encode rest

/-- UTF-8 bytes of one character. -/
def utf8Bytes (c : Char) : List Nat :=
  let n := c.toNat
  if n < 128 then [n]
  else if n < 2048 then [192 ||| (n >>> 6), 128 ||| (n &&& 63)]
  else if n < 65536 then
    [224 ||| (n >>> 12), 128 ||| ((n >>> 6) &&& 63), 128 ||| (n &&& 63)]
  else
    [240 ||| (n >>> 18), 128 ||| ((n >>> 12) &&& 63), 128 ||| ((n >>> 6) &&& 63), 128 ||| (n &&& 63)]

/-- UTF-8 bytes of a string, as Node Buffer.from(s, "utf8") produces them. -/
def strBytes (s : String) : List Nat := s.data.flatMap utf8Bytes

/-- The signature value the handlers compute from the shared secret and the raw
request body: base64 of the HMAC-SHA256 of the raw UTF-8 bytes. -/
def hmacSha256Base64 (secret rawBody : String) : String :=
  base64Encode (hmacSha256 (strBytes secret) (strBytes rawBody))

/-!
Data model: the parts of the webhook JSON document that the handlers read,
and the documents they send to the target catalog API.  Numeric price values
obtained by parseFloat are modelled as exact rationals; metadata values are
modelled as strings (JS truthiness of a string is being nonempty).
-/

/-- One entry of the meta_data list: a key/value pair. -/
structure MetaEntry where
  key : String
  value : String
deriving Repr, DecidableEq

/-- One image reference, carrying its source URL. -/
structure ImageRef where
  src : String
deriving Repr, DecidableEq

/-- A source product attribute, as declared in interface WCProductAttribute of
part_001 (position, visible, variation are optional). -/
structure WCProductAttribute where
  id : Nat
  name : String
  slug : String
  position : Option Int
  visible : Option Bool
  variation : Option Bool
  options : List String
deriving Repr, DecidableEq

/-- A transformed attribute as rebuilt by the payload transformation, with the
optional fields filled in. -/
structure PayloadAttr where
  id : Nat
  name : String
  slug : String
  position : Int
  visible : Bool
  variation : Bool
  options : List String
deriving Repr, DecidableEq

/-- The parsed webhook product: the fields the handlers access.  Fields that
may be absent from the JSON document are Options. -/
structure Product where
  name : String
  type : String
  status : String
  description : String
  short_description : String
  price : ℚ
  regular_price : Option String
  sale_price : Option String
  categories : List String
  images : Option (List ImageRef)
  attributes : Option (List WCProductAttribute)
  variations : Option (List Nat)
  meta_data : Option (List MetaEntry)
deriving Repr, DecidableEq

/-- The cleaned product document built field by field in the second revision of
route.ts (lines 190 to 204): a plain copy of the listed fields. -/
structure CleanProduct where
  name : String
  type : String
  status : String
  description : String
  short_description : String
  price : ℚ
  regular_price : Option String
  sale_price : Option String
  categories : List String
  images : Option (List ImageRef)
  attributes : Option (List WCProductAttribute)
  variations : Option (List Nat)
  meta_data : Option (List MetaEntry)
deriving Repr, DecidableEq

/-- The variable-product payload sent to the catalog endpoint by part_000 and
part_001 (type is forced to variable; attributes are rebuilt; part_001 forces
status draft and augments meta_data). -/
structure Payload where
  name : String
  type : String
  status : String
  description : String
  short_description : String
  categories : List String
  images : List ImageRef
  attributes : Option (List PayloadAttr)
  meta_data : Option (List MetaEntry)
deriving Repr, DecidableEq

/-- The single attribute selection carried by a variation document. -/
structure VariationAttr where
  id : Nat
  option : String
deriving Repr, DecidableEq

/-- A variation-creation document.  part_000 sends no sale_price, part_001
always sends one. -/
structure VariationData where
  regular_price : String
  sale_price : Option String
  attributes : List VariationAttr
deriving Repr, DecidableEq

/-- One outbound HTTP call issued by a handler, in issue order. -/
inductive Call where
  | checkExisting (url : String)
  | createProduct (url : String) (payload : Payload)
  | createVariation (url : String) (data : VariationData)
  | forwardProduct (url : String) (product : Product)
  | createClean (url : String) (product : CleanProduct)
deriving Repr, DecidableEq

/-- Answers of the remote catalog API: the existence-check response (a list of
matching product ids), the product-creation response (the new id), and the
response to the k-th variation-creation call.  An error value models a
transport failure or non-2xx response, which axios surfaces as a thrown
error. -/
structure World where
  checkResult : Except Unit (List Nat)
  createResult : Except Unit Nat
  variationResults : Nat → Except Unit Nat

/-- An uncaught runtime exception (a TypeError from accessing a property of
undefined escapes the handler instead of producing a JSON response). -/
inductive Crash where
  | typeError
deriving Repr, DecidableEq

/-- The JSON response bodies the handlers produce. -/
inductive RespBody where
  | errObj (error : String)
  | created (productId : Nat) (message : String)
  | skipped (productId : Nat) (message : String)
  | forwarded (productId : Nat)
  | testOk
deriving Repr, DecidableEq

/-- A handler response: HTTP status plus JSON body. -/
structure HttpResponse where
  status : Nat
  body : RespBody
deriving Repr, DecidableEq

/-- The environment configuration the handlers read. -/
structure Config where
  secret : String
  consumerKey : String
  consumerSecret : String
  wcApiUrl : String

/-- The inbound webhook request: the headers the handlers read plus the raw
body text. -/
structure WebhookRequest where
  signatureHeader : Option String
  contentType : Option String
  contentLength : Option String
  rawBody : String

/-- Short form for an error envelope response. -/
def errResp (status : Nat) (msg : String) : HttpResponse := ⟨status, .errObj msg⟩

/-- The shared signature check of part_000, part_001 and the later route.ts
revisions: the JS condition (not signatureHeader) or
(signatureHeader strictly unequal to computedSignature); an absent header is
null and an empty header string is falsy, both rejected. -/
def signatureRejected (signatureHeader : Option String) (computedSignature : String) : Bool :=
  match signatureHeader with
  | none => true
  | some s => s == "" || s != computedSignature

/-- JS truthiness test of an optional header string. -/
def jsFalsy (s : Option String) : Bool :=
  match s with
  | none => true
  | some v => v == ""

/-- JS s or-else d for strings: d when s is null or empty. -/
def jsOrStr (s : Option String) (d : String) : String :=
  match s with
  | none => d
  | some v => if v == "" then d else v

/-- JS attr.position or-else 0: 0 when absent (and 0 stays 0). -/
def jsOrInt (x : Option Int) (d : Int) : Int :=
  match x with
  | none => d
  | some v => if v = 0 then d else v

/-- JS String.prototype.toLowerCase, per character (the names compared in the
handlers are plain ASCII). -/
def toLowerStr (s : String) : String := String.mk (s.data.map Char.toLower)

/-- JS parseInt with radix 10: skip leading whitespace, optional sign, read
leading digits; none models NaN. -/
def parseIntJS (s : String) : Option Int :=
  let cs := s.data.dropWhile (fun c => c = ' ' || c = '\t' || c = '\n' || c = '\r')
  let signRest : Int × List Char :=
    match cs with
    | '-' :: r => (-1, r)
    | '+' :: r => (1, r)
    | r => (1, r)
  let ds := signRest.2.takeWhile (fun c => c.isDigit)
  if ds.isEmpty then none
  else some (signRest.1 * (ds.foldl (fun a c => a * 10 + (c.toNat - 48)) 0 : Nat))

/-- Number.prototype.toFixed(2) on the exact rational value: the value
rounded to whole cents (floor of q*100 + 1/2, computed on the reduced
numerator and denominator) and printed with exactly two decimals.  The claims
only involve values that are exact at two decimals, where every rounding
convention agrees. -/
def toFixed2 (q : ℚ) : String :=
  let c : Int := Int.fdiv (2 * (q.num * 100) + (q.den : Int)) (2 * (q.den : Int))
  let n := c.natAbs
  (if c < 0 then "-" else "") ++ toString (n / 100) ++ "." ++
    (if n % 100 < 10 then "0" else "") ++ toString (n % 100)

/-- The attribute reconstruction shared by part_000 (lines 44 to 52) and
part_001 (lines 74 to 82): id, name, slug and options pass through, position
defaults to 0, visible and variation default to true. -/
def transformAttribute (attr : WCProductAttribute) : PayloadAttr :=
  { id := attr.id
    name := attr.name
    slug := attr.slug
    position := jsOrInt attr.position 0
    visible := attr.visible.getD true
    variation := attr.variation.getD true
    options := attr.options }

/-- The variation-creation calls of a transcript. -/
def variationCallsOf (calls : List Call) : List Call :=
  calls.filter (fun c => match c with | .createVariation _ _ => true | _ => false)

/-- Whether a call mutates the target catalog (anything but the existence
check). -/
def isCreationCall : Call → Bool
  | .checkExisting _ => false
  | _ => true

/-- The catalog-mutating calls of a transcript. -/
def creationCalls (calls : List Call) : List Call := calls.filter isCreationCall

/-- The price pair (regular_price, sale_price) of each variation call of a
transcript, in order. -/
def variationPricePairs (calls : List Call) : List (String × Option String) :=
  calls.filterMap (fun c =>
    match c with
    | .createVariation _ d => some (d.regular_price, d.sale_price)
    | _ => none)

/-- Acceptance of the request by the signature boundary: anything but a 401
response (a crash happens past verification). -/
def acceptedSig (r : List Call × Except Crash HttpResponse) : Bool :=
  match r.2 with
  | .error _ => true
  | .ok resp => resp.status != 401


/-!
Handler embeddings.  Route1 is the first revision in route.ts (plain forward),
Route2 the second (debug logging, test-request bypass, cleaned product copy),
Part000 the revision adding variation creation, Part001 the revision adding
the idempotency guard, forced draft status, meta_data augmentation and the
price markup rule.  Each POST takes the environment configuration, the
catalog-API oracle, the JSON.parse oracle (a Node built-in, external to the
repository) and the request, and returns the ordered list of outbound calls
together with the HTTP response, or a crash for an uncaught exception.
-/

namespace Route1

/-- The first route.ts revision (lines 5 to 79): verify the signature with a
plain strict-inequality test, parse, and forward the parsed product as is. -/
def POST (cfg : Config) (world : World) (jsonParse : String → Option Product)
    (req : WebhookRequest) : List Call × Except Crash HttpResponse :=
  let computedSignature := hmacSha256Base64 cfg.secret req.rawBody
  if req.signatureHeader ≠ some computedSignature then
    ([], .ok (errResp 401 "Invalid webhook signature"))
  else
    match jsonParse req.rawBody with
    | none => ([], .ok (errResp 400 "Invalid JSON body"))
    | some product =>
      match world.createResult with
      | .error _ =>
        ([Call.forwardProduct cfg.wcApiUrl product], .ok (errResp 500 "Failed to replicate product"))
      | .ok productId =>
        ([Call.forwardProduct cfg.wcApiUrl product], .ok ⟨200, .forwarded productId⟩)

end Route1

namespace Route2

/-- The cleaned product document of the second route.ts revision
(lines 190 to 204): a field-by-field copy of the parsed product. -/
def cleanProduct (product : Product) : CleanProduct :=
  { name := product.name
    type := product.type
    status := product.status
    description := product.description
    short_description := product.short_description
    price := product.price
    regular_price := product.regular_price
    sale_price := product.sale_price
    categories := product.categories
    images := product.images
    attributes := product.attributes
    variations := product.variations
    meta_data := product.meta_data }

/-- The test-request bypass of the second route.ts revision (lines 107 to
118): content type application/x-www-form-urlencoded and a content length
below 100 answer 200 before any signature work. -/
def isTestRequest (req : WebhookRequest) : Bool :=
  req.contentType == some "application/x-www-form-urlencoded" &&
    (match parseIntJS (jsOrStr req.contentLength "0") with
     | some n => decide (n < 100)
     | none => false)

/-- The second route.ts revision (lines 84 to 243): test bypass, then split
401 branches for a missing and for a mismatched signature, then parse, then
one forwarding call with the cleaned product. -/
def POST (cfg : Config) (world : World) (jsonParse : String → Option Product)
    (req : WebhookRequest) : List Call × Except Crash HttpResponse :=
  if isTestRequest req then
    ([], .ok ⟨200, .testOk⟩)
  else
    let computedSignature := hmacSha256Base64 cfg.secret req.rawBody
    if jsFalsy req.signatureHeader then
      ([], .ok (errResp 401 "Missing webhook signature header"))
    else if req.signatureHeader ≠ some computedSignature then
      ([], .ok (errResp 401 "Invalid webhook signature"))
    else
      match jsonParse req.rawBody with
      | none => ([], .ok (errResp 400 "Invalid JSON body"))
      | some product =>
        let cp := cleanProduct product
        match world.createResult with
        | .error _ =>
          ([Call.createClean cfg.wcApiUrl cp], .ok (errResp 500 "Failed to replicate product"))
        | .ok productId =>
          ([Call.createClean cfg.wcApiUrl cp], .ok ⟨200, .created productId "Product created successfully"⟩)

end Route2

namespace Part000

/-- The variable-product payload of part_000 (lines 36 to 54): type forced to
variable, status passed through, attributes rebuilt, meta_data passed
through. -/
def variableProductPayload (product : Product) (processedImagesSrc : List ImageRef) : Payload :=
  { name := product.name
    type := "variable"
    status := product.status
    description := product.description
    short_description := product.short_description
    categories := product.categories
    images := processedImagesSrc
    attributes := product.attributes.map (List.map transformAttribute)
    meta_data := product.meta_data }

/-- The variation loop of part_000 (lines 72 to 86): one awaited call per
option, no per-call catch, so the first failing call ends the loop (the error
propagates to the top-level catch).  Returns the calls issued and whether all
of them succeeded. -/
def variationLoop (world : World) (endpoint rp : String) (attrId : Nat) :
    List String → Nat → List Call × Bool
  | [], _ => ([], true)
  | size :: rest, idx =>
    let c := Call.createVariation endpoint
      { regular_price := rp, sale_price := none, attributes := [⟨attrId, size⟩] }
    match world.variationResults idx with
    | .error _ => ([c], false)
    | .ok _ =>
      let r := variationLoop world endpoint rp attrId rest (idx + 1)
      (c :: r.1, r.2)

/-- The part_000 handler (lines 5 to 98).  After signature and parse, reading
product.images of an imageless product throws; then one product-creation call
and the sequential variation loop, all inside one try whose catch returns
500. -/
def POST (cfg : Config) (world : World) (jsonParse : String → Option Product)
    (req : WebhookRequest) : List Call × Except Crash HttpResponse :=
  let computedSignature := hmacSha256Base64 cfg.secret req.rawBody
  if signatureRejected req.signatureHeader computedSignature then
    ([], .ok (errResp 401 "Invalid or missing webhook signature"))
  else
    match jsonParse req.rawBody with
    | none => ([], .ok (errResp 400 "Invalid JSON body"))
    | some product =>
      match product.images with
      | none => ([], .error Crash.typeError)
      | some imgs =>
        let processedImagesSrc := imgs.map (fun image => ({ src := image.src } : ImageRef))
        let payload := variableProductPayload product processedImagesSrc
        let callCreate := Call.createProduct cfg.wcApiUrl payload
        match world.createResult with
        | .error _ => ([callCreate], .ok (errResp 500 "Failed to replicate product"))
        | .ok productId =>
          match (product.attributes.getD []).find? (fun attr => toLowerStr attr.name == "size") with
          | none => ([callCreate], .ok ⟨200, .created productId "Product and variations created"⟩)
          | some sizeAttr =>
            let variationsEndpoint := cfg.wcApiUrl ++ "/" ++ toString productId ++ "/variations"
            let r := variationLoop world variationsEndpoint (product.regular_price.getD "0")
              sizeAttr.id sizeAttr.options 0
            if r.2 then
              (callCreate :: r.1, .ok ⟨200, .created productId "Product and variations created"⟩)
            else
              (callCreate :: r.1, .ok (errResp 500 "Failed to replicate product"))

end Part000

namespace Part001

/-- The custom-size test of part_001 (line 111): an exact membership test
against two literal labels. -/
def isCustomSizeLabel (size : String) : Bool :=
  ["Custom Size (+40)", "Custom Size (+$40)"].contains size

/-- The per-option price computation of part_001 (lines 104 to 114) on exact
rational values: baseRegularPrice is basePrice plus 40; the pair
(regularPrice, salePrice) starts as (baseRegularPrice, basePrice) and, for
the two literal custom labels, becomes
(baseRegularPrice plus 40, baseRegularPrice). -/
def variationPricesQ (basePrice : ℚ) (size : String) : ℚ × ℚ :=
  let baseRegularPrice := basePrice + 40
  let regularPrice := baseRegularPrice
  let salePrice := basePrice
  if isCustomSizeLabel size then (regularPrice + 40, baseRegularPrice)
  else (regularPrice, salePrice)

/-- The variation document of part_001 (lines 116 to 125): both prices
formatted with two decimals and a single attribute selection. -/
def variationData (basePrice : ℚ) (sizeAttrId : Nat) (size : String) : VariationData :=
  { regular_price := toFixed2 (variationPricesQ basePrice size).1
    sale_price := some (toFixed2 (variationPricesQ basePrice size).2)
    attributes := [⟨sizeAttrId, size⟩] }

/-- The variable-product payload of part_001 (lines 66 to 87): type forced to
variable, status forced to draft, attributes rebuilt, meta_data equal to the
source list with one origin_id entry appended.  When this payload is built
the meta_data list is known to be present, so the getD default is never
used. -/
def variableProductPayload (product : Product) (originId : String)
    (processedImagesSrc : List ImageRef) : Payload :=
  { name := product.name
    type := "variable"
    status := "draft"
    description := product.description
    short_description := product.short_description
    categories := product.categories
    images := processedImagesSrc
    attributes := product.attributes.map (List.map transformAttribute)
    meta_data := some (product.meta_data.getD [] ++ [⟨"origin_id", originId⟩]) }

/-- The variation calls of part_001 (lines 103 to 136): one creation call per
option of the size attribute, in list order, against the variations
sub-resource.  Each call is wrapped in its own try/catch (lines 127 to 135)
whose failure only logs, so the calls issued and the final response do not
depend on the per-call outcomes. -/
def variationCalls (cfg : Config) (productId : Nat) (basePrice : ℚ)
    (sizeAttr : WCProductAttribute) : List Call :=
  sizeAttr.options.map (fun size =>
    Call.createVariation (cfg.wcApiUrl ++ "/" ++ toString productId ++ "/variations")
      (variationData basePrice sizeAttr.id size))

/-- The creation stage of part_001 (lines 89 to 148): the product-creation
call, then on success the size-attribute lookup and the variation loop; the
top-level catch only fires for the product-creation failure. -/
def createStage (cfg : Config) (world : World) (product : Product) (payload : Payload)
    (callsSoFar : List Call) : List Call × Except Crash HttpResponse :=
  let callCreate := Call.createProduct cfg.wcApiUrl payload
  match world.createResult with
  | .error _ => (callsSoFar ++ [callCreate], .ok (errResp 500 "Failed to replicate product"))
  | .ok productId =>
    match (product.attributes.getD []).find? (fun attr => toLowerStr attr.name == "size") with
    | none =>
      (callsSoFar ++ [callCreate], .ok ⟨200, .created productId "Product and variations created"⟩)
    | some sizeAttr =>
      (callsSoFar ++ [callCreate] ++ variationCalls cfg productId product.price sizeAttr,
       .ok ⟨200, .created productId "Product and variations created"⟩)

/-- The idempotency check of part_001 (lines 46 to 87): the existence query
for the origin id; a transport failure aborts with 500, a non-empty match
list answers 200 with the first existing id and no further call; otherwise
reading product.images of an imageless product throws, and else the payload
is built and the creation stage runs. -/
def checkStage (cfg : Config) (world : World) (product : Product) (originId : String) :
    List Call × Except Crash HttpResponse :=
  let callCheck := Call.checkExisting
    (cfg.wcApiUrl ++ "?meta_key=origin_id&meta_value=" ++ originId)
  match world.checkResult with
  | .error _ => ([callCheck], .ok (errResp 500 "Failed to verify existing products"))
  | .ok existingProducts =>
    match existingProducts with
    | existingId :: _ =>
      ([callCheck], .ok ⟨200, .skipped existingId "Product already exists. Skipping creation."⟩)
    | [] =>
      match product.images with
      | none => ([callCheck], .error Crash.typeError)
      | some imgs =>
        let processedImagesSrc := imgs.map (fun image => ({ src := image.src } : ImageRef))
        createStage cfg world product
          (variableProductPayload product originId processedImagesSrc) [callCheck]

/-- The stage of part_001 after JSON parsing (lines 40 to 148): extract the
origin id from meta_data (absent list, absent entry or falsy value answer
400), then run the idempotency check stage. -/
def afterParse (cfg : Config) (world : World) (product : Product) :
    List Call × Except Crash HttpResponse :=
  let originId := product.meta_data.bind (fun md =>
    (md.find? (fun meta => meta.key == "origin_id")).map (fun meta => meta.value))
  match originId with
  | none => ([], .ok (errResp 400 "Missing origin_id in meta_data"))
  | some v =>
    if v == "" then ([], .ok (errResp 400 "Missing origin_id in meta_data"))
    else checkStage cfg world product v

/-- The part_001 handler (lines 15 to 149). -/
def POST (cfg : Config) (world : World) (jsonParse : String → Option Product)
    (req : WebhookRequest) : List Call × Except Crash HttpResponse :=
  let computedSignature := hmacSha256Base64 cfg.secret req.rawBody
  if signatureRejected req.signatureHeader computedSignature then
    ([], .ok (errResp 401 "Invalid or missing webhook signature"))
  else
    match jsonParse req.rawBody with
    | none => ([], .ok (errResp 400 "Invalid JSON body"))
    | some product => afterParse cfg world product

end Part001

/-!
Basic facts about the signature computation and the verification boundary.
-/

/-- A SHA-256 digest is never the empty byte list. -/
theorem sha256_ne_nil (m : List Nat) : sha256 m ≠ [] := by
  simp [sha256, bytesBE4]

/-- An HMAC-SHA256 digest is never the empty byte list. -/
theorem hmacSha256_ne_nil (k m : List Nat) : hmacSha256 k m ≠ [] := by
  simp only [hmacSha256]
  apply sha256_ne_nil

/-- Base64 of a nonempty byte list is a nonempty string. -/
theorem base64Encode_ne_empty (l : List Nat) (h : l ≠ []) : base64Encode l ≠ "" := by
  match l with
  | [] => exact absurd rfl h
  | [b1] =>
    intro he
    have hd := congrArg String.data he
    rw [base64Encode] at hd
    simp at hd
  | [b1, b2] =>
    intro he
    have hd := congrArg String.data he
    rw [base64Encode] at hd
    simp at hd
  | b1 :: b2 :: b3 :: rest =>
    intro he
    have hd := congrArg String.data he
    rw [base64Encode, String.data_append] at hd
    simp at hd

/-- The computed signature value is never the empty string. -/
theorem hmacSha256Base64_ne_empty (secret rawBody : String) :
    hmacSha256Base64 secret rawBody ≠ "" := by
  exact base64Encode_ne_empty _ (hmacSha256_ne_nil _ _)

/-- The shared rejection test fails exactly when the header equals the
computed signature, provided the computed signature is nonempty. -/
theorem signatureRejected_eq_false_iff (h : Option String) (c : String) (hc : c ≠ "") :
    signatureRejected h c = false ↔ h = some c := by
  cases h with
  | none => simp [signatureRejected]
  | some s =>
    simp only [signatureRejected, Bool.or_eq_false_iff, beq_eq_false_iff_ne, bne_eq_false_iff_eq,
      Option.some.injEq]
    constructor
    · rintro ⟨-, h2⟩; exact h2
    · rintro rfl; exact ⟨hc, rfl⟩

/-- No branch of the creation stage of part_001 produces a 401. -/
theorem Part001.createStage_accepted (cfg : Config) (world : World) (product : Product)
    (payload : Payload) (callsSoFar : List Call) :
    acceptedSig (Part001.createStage cfg world product payload callsSoFar) = true := by
  simp only [Part001.createStage]
  cases hw : world.createResult with
  | error e => rfl
  | ok pid =>
    cases hf : (product.attributes.getD []).find? (fun attr => toLowerStr attr.name == "size") with
    | none => rfl
    | some sizeAttr => rfl

/-- No branch of the idempotency-check stage of part_001 produces a 401. -/
theorem Part001.checkStage_accepted (cfg : Config) (world : World) (product : Product)
    (v : String) : acceptedSig (Part001.checkStage cfg world product v) = true := by
  simp only [Part001.checkStage]
  cases hw : world.checkResult with
  | error e => rfl
  | ok l =>
    cases l with
    | cons i t => rfl
    | nil =>
      cases hi : product.images with
      | none => rfl
      | some imgs => exact Part001.createStage_accepted cfg world product _ _

/-- No branch of part_001 after the signature boundary produces a 401. -/
theorem Part001.afterParse_accepted (cfg : Config) (world : World) (product : Product) :
    acceptedSig (Part001.afterParse cfg world product) = true := by
  simp only [Part001.afterParse]
  cases hmd : product.meta_data.bind (fun md =>
      (md.find? (fun meta => meta.key == "origin_id")).map (fun meta => meta.value)) with
  | none => rfl
  | some v =>
    dsimp only
    by_cases hv : (v == "") = true
    · rw [if_pos hv]; rfl
    · simp only [Bool.not_eq_true] at hv
      simp only [hv, Bool.false_eq_true, if_false]
      exact Part001.checkStage_accepted cfg world product v

/-- Acceptance characterization for the part_001 handler: the request passes
the signature boundary exactly when the claimed header equals the computed
signature of the raw body. -/
theorem Part001.accepted_iff_hmac_part001 (cfg : Config) (world : World)
    (jsonParse : String → Option Product) (req : WebhookRequest) :
    acceptedSig (Part001.POST cfg world jsonParse req) = true ↔
      req.signatureHeader = some (hmacSha256Base64 cfg.secret req.rawBody) := by
  have hc := hmacSha256Base64_ne_empty cfg.secret req.rawBody
  cases hrej : signatureRejected req.signatureHeader (hmacSha256Base64 cfg.secret req.rawBody) with
  | false =>
    have hhdr := (signatureRejected_eq_false_iff _ _ hc).mp hrej
    simp only [Part001.POST, hrej, Bool.false_eq_true, if_false]
    cases hp : jsonParse req.rawBody with
    | none => simpa [acceptedSig, errResp] using hhdr
    | some product => simpa [Part001.afterParse_accepted] using hhdr
  | true =>
    have hhdr : req.signatureHeader ≠ some (hmacSha256Base64 cfg.secret req.rawBody) := by
      intro he
      rw [(signatureRejected_eq_false_iff _ _ hc).mpr he] at hrej
      exact Bool.false_ne_true hrej
    simp only [Part001.POST, hrej, if_true]
    simpa [acceptedSig, errResp] using hhdr

/-- Acceptance characterization for the first route.ts revision. -/
theorem Route1.accepted_iff_hmac_route1 (cfg : Config) (world : World)
    (jsonParse : String → Option Product) (req : WebhookRequest) :
    acceptedSig (Route1.POST cfg world jsonParse req) = true ↔
      req.signatureHeader = some (hmacSha256Base64 cfg.secret req.rawBody) := by
  by_cases hh : req.signatureHeader = some (hmacSha256Base64 cfg.secret req.rawBody)
  · simp only [Route1.POST, hh, ne_eq, not_true_eq_false, if_false]
    cases hp : jsonParse req.rawBody with
    | none => simpa [acceptedSig, errResp] using hh
    | some product =>
      cases hw : world.createResult with
      | error e => simpa [acceptedSig, errResp] using hh
      | ok productId => simpa [acceptedSig] using hh
  · simp only [Route1.POST, ne_eq, hh, not_false_eq_true, if_true]
    simpa [acceptedSig, errResp] using hh

/-- C2: for every raw body B, secret S and claimed signature header H, the
handler proceeds past verification precisely when H equals the base64
HMAC-SHA256 of the raw unparsed body bytes under S; this holds for the
idempotency-variant handler part_001 and for the first route.ts revision,
for every catalog oracle and parse oracle. -/
theorem C2_accept_iff_hmac (cfg : Config) (world : World)
    (jsonParse : String → Option Product) (req : WebhookRequest) :
    (acceptedSig (Part001.POST cfg world jsonParse req) = true ↔
      req.signatureHeader = some (hmacSha256Base64 cfg.secret req.rawBody)) ∧
    (acceptedSig (Route1.POST cfg world jsonParse req) = true ↔
      req.signatureHeader = some (hmacSha256Base64 cfg.secret req.rawBody)) :=
  ⟨Part001.accepted_iff_hmac_part001 cfg world jsonParse req, Route1.accepted_iff_hmac_route1 cfg world jsonParse req⟩

/-!
Claim C1.  The claim predicts a 401 response with zero outbound calls for
every request with an absent or wrong signature header.  This holds for
part_001, but the second route.ts revision answers form-encoded requests with
a small content length with a 200 test acknowledgement before any signature
work, so the claim fails there as universally stated.
-/

/-- The signature precondition of the claim: header absent or different from
the base64 HMAC-SHA256 of the raw body under the shared secret. -/
def sigAbsentOrWrong (cfg : Config) (req : WebhookRequest) : Prop :=
  req.signatureHeader = none ∨
    req.signatureHeader ≠ some (hmacSha256Base64 cfg.secret req.rawBody)

/-- The claim precondition forces the shared rejection test to fire. -/
theorem signatureRejected_of_absentOrWrong (cfg : Config) (req : WebhookRequest)
    (h : sigAbsentOrWrong cfg req) :
    signatureRejected req.signatureHeader (hmacSha256Base64 cfg.secret req.rawBody) = true := by
  rcases h with h | h
  · rw [h]; rfl
  · cases hs : req.signatureHeader with
    | none => rfl
    | some s =>
      have hne : s ≠ hmacSha256Base64 cfg.secret req.rawBody := by
        intro he
        exact h (by rw [hs, he])
      simp [signatureRejected, hne]

/-- A fixed example configuration. -/
def cfg0 : Config :=
  { secret := "testsecret"
    consumerKey := "ck"
    consumerSecret := "cs"
    wcApiUrl := "https://site2.example/wp-json/wc/v3/products" }

/-- A catalog oracle where every remote call succeeds and nothing exists
yet. -/
def worldEmpty : World :=
  { checkResult := .ok []
    createResult := .ok 77
    variationResults := fun _ => .ok 500 }

/-- A parse oracle for a body that is not valid JSON. -/
def parseNone : String → Option Product := fun _ => none

/-- A request with no signature header and no test shape. -/
def reqNoSig : WebhookRequest :=
  { signatureHeader := none, contentType := none, contentLength := none, rawBody := "{}" }

/-- A request with no signature header but the shape of a WooCommerce ping:
form-encoded content type and a small content length. -/
def reqTest : WebhookRequest :=
  { signatureHeader := none
    contentType := some "application/x-www-form-urlencoded"
    contentLength := some "50"
    rawBody := "webhook_id=1" }

/-- C1 counterexample: the second route.ts revision answers a request whose
signature header is absent with status 200 (the test acknowledgement), not
401, refuting the claim as universally stated. -/
theorem c1_counterexample :
    reqTest.signatureHeader = none ∧
    Route2.POST cfg0 worldEmpty parseNone reqTest = ([], .ok ⟨200, .testOk⟩) ∧
    (200 : Nat) ≠ 401 :=
  ⟨rfl, rfl, by decide⟩

/-- C1 (amended): for every request whose signature header is absent or does
not equal the base64 HMAC-SHA256 of the raw body under the shared secret,
part_001 answers 401 with zero outbound calls, and the second route.ts
revision does the same unless the request has the test shape (form-encoded
content type, content length below 100), in which case it answers 200 with
zero outbound calls before any signature work. -/
theorem C1_sig_failure_behaviour (cfg : Config) (world : World)
    (jsonParse : String → Option Product) (req : WebhookRequest)
    (h : sigAbsentOrWrong cfg req) :
    Part001.POST cfg world jsonParse req =
      ([], .ok (errResp 401 "Invalid or missing webhook signature")) ∧
    (Route2.isTestRequest req = false →
      (Route2.POST cfg world jsonParse req).1 = [] ∧
      ∃ resp, (Route2.POST cfg world jsonParse req).2 = .ok resp ∧ resp.status = 401) ∧
    (Route2.isTestRequest req = true →
      Route2.POST cfg world jsonParse req = ([], .ok ⟨200, .testOk⟩)) := by
  have hrej := signatureRejected_of_absentOrWrong cfg req h
  refine ⟨?_, ?_, ?_⟩
  · simp [Part001.POST, hrej]
  · intro htest
    simp only [Route2.POST, htest, Bool.false_eq_true, if_false]
    cases hs : req.signatureHeader with
    | none => exact ⟨rfl, errResp 401 "Missing webhook signature header", rfl, rfl⟩
    | some s =>
      by_cases hse : (s == "") = true
      · simp only [jsFalsy, hs, hse, if_true]
        exact ⟨trivial, errResp 401 "Missing webhook signature header", rfl, rfl⟩
      · have hne : req.signatureHeader ≠ some (hmacSha256Base64 cfg.secret req.rawBody) := by
          rcases h with h | h
          · rw [h] at hs; cases hs
          · exact h
        rw [hs] at hne
        simp only [jsFalsy, hs, hse, Bool.false_eq_true, if_false, ne_eq, hne,
          not_false_eq_true, if_true]
        exact ⟨trivial, errResp 401 "Invalid webhook signature", rfl, rfl⟩
  · intro htest
    simp [Route2.POST, htest]

/-- C1 witness: a concrete signatureless request is answered 401 with no
calls by part_001, and a concrete signatureless test-shaped request is
answered 200 with no calls by the second route.ts revision. -/
theorem c1_witness :
    Part001.POST cfg0 worldEmpty parseNone reqNoSig =
      ([], .ok (errResp 401 "Invalid or missing webhook signature")) ∧
    Route2.POST cfg0 worldEmpty parseNone reqTest = ([], .ok ⟨200, .testOk⟩) :=
  ⟨(C1_sig_failure_behaviour cfg0 worldEmpty parseNone reqNoSig (Or.inl rfl)).1,
   (C1_sig_failure_behaviour cfg0 worldEmpty parseNone reqTest (Or.inl rfl)).2.2 rfl⟩

/-!
Reduction lemmas tracing a request through the stages of part_001.
-/

/-- With a correct signature and a parsed product, part_001 reaches the
post-parse stage. -/
theorem Part001.post_sig_ok (cfg : Config) (world : World)
    (jsonParse : String → Option Product) (req : WebhookRequest) (product : Product)
    (h1 : req.signatureHeader = some (hmacSha256Base64 cfg.secret req.rawBody))
    (h2 : jsonParse req.rawBody = some product) :
    Part001.POST cfg world jsonParse req = Part001.afterParse cfg world product := by
  have hrej := (signatureRejected_eq_false_iff _ _
    (hmacSha256Base64_ne_empty cfg.secret req.rawBody)).mpr h1
  simp [Part001.POST, hrej, h2]

/-- With a present meta_data list holding a truthy origin_id entry, the
post-parse stage reaches the idempotency check. -/
theorem Part001.afterParse_run (cfg : Config) (world : World) (product : Product)
    (md : List MetaEntry) (entry : MetaEntry)
    (h3 : product.meta_data = some md)
    (h4 : md.find? (fun meta => meta.key == "origin_id") = some entry)
    (h5 : entry.value ≠ "") :
    Part001.afterParse cfg world product = Part001.checkStage cfg world product entry.value := by
  simp [Part001.afterParse, h3, h4, h5]

/-- With an empty existence result and an images list present, the check
stage reaches the creation stage with the built payload. -/
theorem Part001.checkStage_run (cfg : Config) (world : World) (product : Product)
    (v : String) (imgs : List ImageRef)
    (h6 : world.checkResult = .ok [])
    (h7 : product.images = some imgs) :
    Part001.checkStage cfg world product v =
      Part001.createStage cfg world product
        (Part001.variableProductPayload product v
          (imgs.map (fun image => ({ src := image.src } : ImageRef))))
        [Call.checkExisting (cfg.wcApiUrl ++ "?meta_key=origin_id&meta_value=" ++ v)] := by
  simp [Part001.checkStage, h6, h7]

/-- With a non-empty existence result the check stage short-circuits. -/
theorem Part001.checkStage_skip (cfg : Config) (world : World) (product : Product)
    (v : String) (i : Nat) (t : List Nat)
    (h6 : world.checkResult = .ok (i :: t)) :
    Part001.checkStage cfg world product v =
      ([Call.checkExisting (cfg.wcApiUrl ++ "?meta_key=origin_id&meta_value=" ++ v)],
       .ok ⟨200, .skipped i "Product already exists. Skipping creation."⟩) := by
  simp [Part001.checkStage, h6]

/-- With an empty existence result but no images list, the check stage
crashes while building the payload. -/
theorem Part001.checkStage_crash (cfg : Config) (world : World) (product : Product)
    (v : String)
    (h6 : world.checkResult = .ok [])
    (h7 : product.images = none) :
    Part001.checkStage cfg world product v =
      ([Call.checkExisting (cfg.wcApiUrl ++ "?meta_key=origin_id&meta_value=" ++ v)],
       .error Crash.typeError) := by
  simp [Part001.checkStage, h6, h7]

/-- With successful creation and a size attribute found, the creation stage
issues the variation calls and answers created. -/
theorem Part001.createStage_run (cfg : Config) (world : World) (product : Product)
    (payload : Payload) (callsSoFar : List Call) (pid : Nat) (sizeAttr : WCProductAttribute)
    (h8 : world.createResult = .ok pid)
    (h9 : (product.attributes.getD []).find? (fun attr => toLowerStr attr.name == "size") =
      some sizeAttr) :
    Part001.createStage cfg world product payload callsSoFar =
      (callsSoFar ++ [Call.createProduct cfg.wcApiUrl payload] ++
         Part001.variationCalls cfg pid product.price sizeAttr,
       .ok ⟨200, .created pid "Product and variations created"⟩) := by
  simp [Part001.createStage, h8, h9]

/-- With successful creation and no size attribute, the creation stage skips
variations and answers created. -/
theorem Part001.createStage_nosize (cfg : Config) (world : World) (product : Product)
    (payload : Payload) (callsSoFar : List Call) (pid : Nat)
    (h8 : world.createResult = .ok pid)
    (h9 : (product.attributes.getD []).find? (fun attr => toLowerStr attr.name == "size") = none) :
    Part001.createStage cfg world product payload callsSoFar =
      (callsSoFar ++ [Call.createProduct cfg.wcApiUrl payload],
       .ok ⟨200, .created pid "Product and variations created"⟩) := by
  simp [Part001.createStage, h8, h9]

/-!
Claim C5: the idempotent skip.
-/

/-- C5: in the idempotency variant, for every verified, parsed product whose
origin identifier already exists in the target catalog (the existence check
answers a non-empty list), the handler answers 200 echoing the first existing
identifier and issues no creation call at all: the transcript is exactly the
one existence check. -/
theorem C5_idempotent_skip (cfg : Config) (world : World)
    (jsonParse : String → Option Product) (req : WebhookRequest) (product : Product)
    (md : List MetaEntry) (entry : MetaEntry) (i : Nat) (t : List Nat)
    (h1 : req.signatureHeader = some (hmacSha256Base64 cfg.secret req.rawBody))
    (h2 : jsonParse req.rawBody = some product)
    (h3 : product.meta_data = some md)
    (h4 : md.find? (fun meta => meta.key == "origin_id") = some entry)
    (h5 : entry.value ≠ "")
    (h6 : world.checkResult = .ok (i :: t)) :
    Part001.POST cfg world jsonParse req =
      ([Call.checkExisting (cfg.wcApiUrl ++ "?meta_key=origin_id&meta_value=" ++ entry.value)],
       .ok ⟨200, .skipped i "Product already exists. Skipping creation."⟩) ∧
    creationCalls (Part001.POST cfg world jsonParse req).1 = [] := by
  have hrun : Part001.POST cfg world jsonParse req =
      ([Call.checkExisting (cfg.wcApiUrl ++ "?meta_key=origin_id&meta_value=" ++ entry.value)],
       .ok ⟨200, .skipped i "Product already exists. Skipping creation."⟩) := by
    rw [Part001.post_sig_ok cfg world jsonParse req product h1 h2,
      Part001.afterParse_run cfg world product md entry h3 h4 h5,
      Part001.checkStage_skip cfg world product entry.value i t h6]
  exact ⟨hrun, by rw [hrun]; rfl⟩

/-- The meta_data list of the example product: one origin entry. -/
def mdOrigin : List MetaEntry := [⟨"origin_id", "src-1"⟩]

/-- An example parsed product with a size attribute, images and an origin
entry. -/
def prodBase : Product :=
  { name := "Tee"
    type := "simple"
    status := "publish"
    description := "d"
    short_description := "sd"
    price := 10
    regular_price := none
    sale_price := none
    categories := ["c"]
    images := some [⟨"https://img.example/1.jpg"⟩]
    attributes := some [⟨1, "Size", "size", none, none, none, ["S", "M", "L"]⟩]
    variations := none
    meta_data := some mdOrigin }

/-- A catalog oracle that already holds a product with this origin id. -/
def worldExisting : World :=
  { checkResult := .ok [42]
    createResult := .ok 77
    variationResults := fun _ => .ok 1 }

/-- A parse oracle answering a fixed product. -/
def parseOf (p : Product) : String → Option Product := fun _ => some p

/-- A correctly signed JSON request carrying a given body. -/
def reqSigned (cfg : Config) (body : String) : WebhookRequest :=
  { signatureHeader := some (hmacSha256Base64 cfg.secret body)
    contentType := some "application/json"
    contentLength := some "1000"
    rawBody := body }

/-- C5 witness: the concrete skip run. -/
theorem c5_witness :
    Part001.POST cfg0 worldExisting (parseOf prodBase) (reqSigned cfg0 "{}") =
      ([Call.checkExisting (cfg0.wcApiUrl ++ "?meta_key=origin_id&meta_value=" ++ "src-1")],
       .ok ⟨200, .skipped 42 "Product already exists. Skipping creation."⟩) ∧
    creationCalls (Part001.POST cfg0 worldExisting (parseOf prodBase) (reqSigned cfg0 "{}")).1 = [] :=
  C5_idempotent_skip cfg0 worldExisting (parseOf prodBase) (reqSigned cfg0 "{}") prodBase
    mdOrigin ⟨"origin_id", "src-1"⟩ 42 [] rfl rfl rfl rfl (by decide) rfl

/-!
Claim C3.  In part_001 the source regular_price field is never consulted by
the variation pricing: every option starts from basePrice plus 40, and the
two literal custom labels get a further 40 with the sale price shifted.  The
claimed values (50.00/10.00 for the custom option, 15.00/10.00 for M with an
explicit regular price) do not match the code.
-/

/-- An example product whose single size option is the custom label and whose
regular_price is blank. -/
def prodCustom : Product :=
  { prodBase with
    regular_price := some ""
    attributes := some [⟨1, "Size", "size", none, none, none, ["Custom Size (+40)"]⟩] }

/-- An example product with regular_price 15.00 and the single non-custom
option M. -/
def prodM15 : Product :=
  { prodBase with
    regular_price := some "15.00"
    attributes := some [⟨1, "Size", "size", none, none, none, ["M"]⟩] }

/-- An example product with both size options and parameterized price
fields, to show the variation prices do not depend on them. -/
def prodBoth (rp sp : Option String) : Product :=
  { prodBase with
    regular_price := rp
    sale_price := sp
    attributes := some [⟨1, "Size", "size", none, none, none, ["Custom Size (+40)", "M"]⟩] }

unseal Rat.add in
/-- C3 counterexample: with price 10.00 and blank regular_price, the
variation issued for the option Custom Size (+40) carries regular_price
90.00 and sale_price 50.00, not the claimed 50.00 and 10.00; and with
regular_price 15.00 the variation for M carries regular_price 50.00, not the
claimed 15.00. -/
theorem c3_counterexample :
    variationPricePairs (Part001.POST cfg0 worldEmpty (parseOf prodCustom)
        (reqSigned cfg0 "{}")).1 = [("90.00", some "50.00")] ∧
    (("90.00", some "50.00") : String × Option String) ≠ ("50.00", some "10.00") ∧
    variationPricePairs (Part001.POST cfg0 worldEmpty (parseOf prodM15)
        (reqSigned cfg0 "{}")).1 = [("50.00", some "10.00")] ∧
    ("50.00" : String) ≠ "15.00" :=
  ⟨rfl, by decide, rfl, by decide⟩

unseal Rat.add in
/-- C3 (amended): with the markup rule active the source regular_price and
sale_price fields are not consulted at all; with price 10.00, for every value
of those fields, the option Custom Size (+40) is priced regular 90.00 and
sale 50.00 (price plus 80, price plus 40), and the non-custom option M is
priced regular 50.00 and sale 10.00 (price plus 40, price). -/
theorem C3_markup_pricing (rp sp : Option String) :
    variationPricePairs (Part001.POST cfg0 worldEmpty (parseOf (prodBoth rp sp))
        (reqSigned cfg0 "{}")).1 =
      [("90.00", some "50.00"), ("50.00", some "10.00")] := by
  rw [Part001.post_sig_ok cfg0 worldEmpty (parseOf (prodBoth rp sp)) (reqSigned cfg0 "{}")
      (prodBoth rp sp) rfl rfl,
    Part001.afterParse_run cfg0 worldEmpty (prodBoth rp sp) mdOrigin
      ⟨"origin_id", "src-1"⟩ rfl rfl (by decide),
    Part001.checkStage_run cfg0 worldEmpty (prodBoth rp sp) "src-1"
      [⟨"https://img.example/1.jpg"⟩] rfl rfl,
    Part001.createStage_run cfg0 worldEmpty (prodBoth rp sp) _ _ 77
      ⟨1, "Size", "size", none, none, none, ["Custom Size (+40)", "M"]⟩ rfl rfl]
  have hp : (prodBoth rp sp).price = (10 : ℚ) := rfl
  rw [hp]
  exact rfl

/-!
Claim C6.  The custom-size test of part_001 is an exact match against two
literal labels, not a case-insensitive substring match on custom.
-/

/-- Whether a character list starts with a given pattern. -/
def listStartsWith : List Char → List Char → Bool
  | _, [] => true
  | [], _ :: _ => false
  | a :: as, b :: bs => a == b && listStartsWith as bs

/-- Whether a character list contains a given pattern as a contiguous
sublist. -/
def listContainsSub (hay pat : List Char) : Bool :=
  match hay with
  | [] => listStartsWith [] pat
  | _ :: t => listStartsWith hay pat || listContainsSub t pat

/-- The matching rule the claim describes (spec side, for comparison):
case-insensitive substring match on custom. -/
def containsCustomCI (s : String) : Bool :=
  listContainsSub (toLowerStr s).data "custom".data

unseal Rat.add in
/-- C6 counterexample: the label custom (which contains custom in lower
case) does not receive the increment: it is priced like the plain label M,
namely (price plus 40, price), not (price plus 80, price plus 40). -/
theorem c6_counterexample :
    containsCustomCI "custom" = true ∧
    Part001.isCustomSizeLabel "custom" = false ∧
    Part001.variationPricesQ 10 "custom" = Part001.variationPricesQ 10 "M" ∧
    Part001.variationPricesQ 10 "custom" = (50, 10) ∧
    (Part001.variationPricesQ 10 "custom").1 ≠ 90 :=
  ⟨by decide, by decide, by decide, by decide, by decide⟩

/-- C6 (amended): a variation option label receives the additional increment
of 40 to the regular price, with the sale price shifted to the unadjusted
regular price, exactly when the label is literally Custom Size (+40) or
Custom Size (+$40); a label merely containing custom in some letter case
gets no increment. -/
theorem C6_increment_iff_literal (basePrice : ℚ) (size : String) :
    Part001.variationPricesQ basePrice size =
        (basePrice + 40 + 40, basePrice + 40) ↔
      (size = "Custom Size (+40)" ∨ size = "Custom Size (+$40)") := by
  constructor
  · intro he
    by_cases hc : Part001.isCustomSizeLabel size = true
    · simpa [Part001.isCustomSizeLabel, List.contains, List.elem_cons, Bool.or_eq_true,
        beq_iff_eq] using hc
    · simp only [Bool.not_eq_true] at hc
      rw [Part001.variationPricesQ] at he
      simp only [hc, Bool.false_eq_true, if_false, Prod.mk.injEq] at he
      exfalso
      linarith [he.1]
  · intro hm
    have hc : Part001.isCustomSizeLabel size = true := by
      rcases hm with rfl | rfl <;> decide
    simp [Part001.variationPricesQ, hc]

/-!
Claim C7: attribute default filling and order preservation.
-/

/-- C7: a source attribute lacking position, visible and variation is
transformed to position 0, visible true, variation true with id, name, slug
and options passed through unchanged; and the attribute transformation is a
per-element map, so the transformed array preserves source order
position-wise. -/
theorem C7_attribute_defaults (attr : WCProductAttribute)
    (hp : attr.position = none) (hv : attr.visible = none) (hvar : attr.variation = none) :
    transformAttribute attr =
      { id := attr.id, name := attr.name, slug := attr.slug, position := 0,
        visible := true, variation := true, options := attr.options } ∧
    ∀ (l : List WCProductAttribute) (i : Nat),
      (l.map transformAttribute)[i]? = (l[i]?).map transformAttribute := by
  constructor
  · simp [transformAttribute, hp, hv, hvar, jsOrInt]
  · intro l i
    exact List.getElem?_map transformAttribute l i

/-- An example attribute without the three optional fields. -/
def attrNoFlags : WCProductAttribute := ⟨2, "Size", "size", none, none, none, ["S", "M"]⟩

/-- A second example attribute, for the order-preservation instance. -/
def attrNoFlags2 : WCProductAttribute := ⟨3, "Color", "color", none, none, none, ["red"]⟩

/-- C7 witness: the concrete transformation and a concrete index lookup. -/
theorem c7_witness :
    transformAttribute attrNoFlags = ⟨2, "Size", "size", 0, true, true, ["S", "M"]⟩ ∧
    ([attrNoFlags, attrNoFlags2].map transformAttribute)[1]? =
      ([attrNoFlags, attrNoFlags2][1]?).map transformAttribute :=
  ⟨(C7_attribute_defaults attrNoFlags rfl rfl rfl).1,
   (C7_attribute_defaults attrNoFlags rfl rfl rfl).2 [attrNoFlags, attrNoFlags2] 1⟩

/-!
Claim C9: a verified, parsed product without an images array crashes the
handlers with an uncaught TypeError instead of a JSON error envelope.
-/

/-- C9: for every request passing signature verification and JSON parsing
whose product has no images array, part_000 raises an uncaught exception
immediately, and part_001 raises one after the origin-id guard and an empty
existence check, in both cases instead of returning any JSON error
envelope. -/
theorem C9_missing_images_crash (cfg : Config) (world : World)
    (jsonParse : String → Option Product) (req : WebhookRequest) (product : Product)
    (h1 : req.signatureHeader = some (hmacSha256Base64 cfg.secret req.rawBody))
    (h2 : jsonParse req.rawBody = some product)
    (himg : product.images = none) :
    Part000.POST cfg world jsonParse req = ([], .error Crash.typeError) ∧
    ∀ (md : List MetaEntry) (entry : MetaEntry),
      product.meta_data = some md →
      md.find? (fun meta => meta.key == "origin_id") = some entry →
      entry.value ≠ "" →
      world.checkResult = .ok [] →
      Part001.POST cfg world jsonParse req =
        ([Call.checkExisting (cfg.wcApiUrl ++ "?meta_key=origin_id&meta_value=" ++ entry.value)],
         .error Crash.typeError) := by
  have hrej := (signatureRejected_eq_false_iff _ _
    (hmacSha256Base64_ne_empty cfg.secret req.rawBody)).mpr h1
  constructor
  · simp [Part000.POST, hrej, h2, himg]
  · intro md entry h3 h4 h5 h6
    rw [Part001.post_sig_ok cfg world jsonParse req product h1 h2,
      Part001.afterParse_run cfg world product md entry h3 h4 h5,
      Part001.checkStage_crash cfg world product entry.value h6 himg]

/-- The example product with its images field absent. -/
def prodNoImages : Product := { prodBase with images := none }

/-- C9 witness: the concrete crashing runs of both handlers. -/
theorem c9_witness :
    Part000.POST cfg0 worldEmpty (parseOf prodNoImages) (reqSigned cfg0 "{}") =
      ([], .error Crash.typeError) ∧
    Part001.POST cfg0 worldEmpty (parseOf prodNoImages) (reqSigned cfg0 "{}") =
      ([Call.checkExisting (cfg0.wcApiUrl ++ "?meta_key=origin_id&meta_value=" ++ "src-1")],
       .error Crash.typeError) :=
  ⟨(C9_missing_images_crash cfg0 worldEmpty (parseOf prodNoImages) (reqSigned cfg0 "{}")
      prodNoImages rfl rfl rfl).1,
   (C9_missing_images_crash cfg0 worldEmpty (parseOf prodNoImages) (reqSigned cfg0 "{}")
      prodNoImages rfl rfl rfl).2 mdOrigin ⟨"origin_id", "src-1"⟩ rfl rfl (by decide) rfl⟩

/-!
Claims C4 and C8: the variation loop.  In part_001 every variation call is
wrapped in its own try/catch, so the transcript and the response do not
depend on the per-call outcomes; in part_000 there is no per-call catch and
the first failure aborts the request with a 500.
-/

/-- Filtering for variation calls keeps a list made only of variation
calls. -/
theorem variationCallsOf_map_create (u : String) (f : String → VariationData)
    (os : List String) :
    variationCallsOf (os.map (fun size => Call.createVariation u (f size))) =
      os.map (fun size => Call.createVariation u (f size)) := by
  induction os with
  | nil => rfl
  | cons a t ih =>
    simp only [List.map_cons, variationCallsOf, List.filter_cons] at ih ⊢
    simpa using ih

/-- The product-creation call of the creation stage is always issued. -/
theorem Part001.createProduct_mem_createStage (cfg : Config) (world : World)
    (product : Product) (payload : Payload) (callsSoFar : List Call) :
    Call.createProduct cfg.wcApiUrl payload ∈
      (Part001.createStage cfg world product payload callsSoFar).1 := by
  simp only [Part001.createStage]
  cases hw : world.createResult with
  | error e => simp
  | ok pid =>
    cases hf : (product.attributes.getD []).find? (fun attr => toLowerStr attr.name == "size") with
    | none => simp
    | some sizeAttr => simp

/-- C4 (amended): in the markup/idempotency variant part_001, for every
product that reaches variation creation, the per-call outcomes are caught
individually (the catalog oracle's variationResults is unconstrained here):
whatever fails, every option still gets its creation call, in order, and the
response is the success envelope with the created product identifier.  In
the basic variant part_000 a variation failure instead aborts the request
with a 500 (see the counterexample). -/
theorem C4_variation_failures_tolerated (cfg : Config) (world : World)
    (jsonParse : String → Option Product) (req : WebhookRequest) (product : Product)
    (md : List MetaEntry) (entry : MetaEntry) (imgs : List ImageRef)
    (pid : Nat) (sizeAttr : WCProductAttribute)
    (h1 : req.signatureHeader = some (hmacSha256Base64 cfg.secret req.rawBody))
    (h2 : jsonParse req.rawBody = some product)
    (h3 : product.meta_data = some md)
    (h4 : md.find? (fun meta => meta.key == "origin_id") = some entry)
    (h5 : entry.value ≠ "")
    (h6 : world.checkResult = .ok [])
    (h7 : product.images = some imgs)
    (h8 : world.createResult = .ok pid)
    (h9 : (product.attributes.getD []).find? (fun attr => toLowerStr attr.name == "size") =
      some sizeAttr) :
    Part001.POST cfg world jsonParse req =
      ([Call.checkExisting (cfg.wcApiUrl ++ "?meta_key=origin_id&meta_value=" ++ entry.value)] ++
       [Call.createProduct cfg.wcApiUrl
         (Part001.variableProductPayload product entry.value
           (imgs.map (fun image => ({ src := image.src } : ImageRef))))] ++
       Part001.variationCalls cfg pid product.price sizeAttr,
       .ok ⟨200, .created pid "Product and variations created"⟩) ∧
    (Part001.variationCalls cfg pid product.price sizeAttr).length =
      sizeAttr.options.length := by
  constructor
  · rw [Part001.post_sig_ok cfg world jsonParse req product h1 h2,
      Part001.afterParse_run cfg world product md entry h3 h4 h5,
      Part001.checkStage_run cfg world product entry.value imgs h6 h7,
      Part001.createStage_run cfg world product _ _ pid sizeAttr h8 h9]
  · simp [Part001.variationCalls]

/-- A catalog oracle whose second variation call fails at the transport
level. -/
def worldVarFail : World :=
  { checkResult := .ok []
    createResult := .ok 77
    variationResults := fun k => if k = 1 then .error () else .ok 900 }

/-- C4 counterexample: in part_000 (which the claim also cites), with three
size options and the second variation call failing, only two variation calls
are issued (the third never executes) and the response is a 500 error
envelope, not a success envelope. -/
theorem c4_counterexample :
    (Part000.POST cfg0 worldVarFail (parseOf prodBase) (reqSigned cfg0 "{}")).2 =
      .ok (errResp 500 "Failed to replicate product") ∧
    (variationCallsOf
      (Part000.POST cfg0 worldVarFail (parseOf prodBase) (reqSigned cfg0 "{}")).1).length = 2 ∧
    prodBase.attributes = some [⟨1, "Size", "size", none, none, none, ["S", "M", "L"]⟩] :=
  ⟨rfl, rfl, rfl⟩

/-- C4 witness: the concrete part_001 run against the oracle whose second
variation call fails: all three calls are issued and the response is the
success envelope. -/
theorem c4_witness :
    Part001.POST cfg0 worldVarFail (parseOf prodBase) (reqSigned cfg0 "{}") =
      ([Call.checkExisting (cfg0.wcApiUrl ++ "?meta_key=origin_id&meta_value=" ++ "src-1")] ++
       [Call.createProduct cfg0.wcApiUrl
         (Part001.variableProductPayload prodBase "src-1" [⟨"https://img.example/1.jpg"⟩])] ++
       Part001.variationCalls cfg0 77 prodBase.price
         ⟨1, "Size", "size", none, none, none, ["S", "M", "L"]⟩,
       .ok ⟨200, .created 77 "Product and variations created"⟩) ∧
    (Part001.variationCalls cfg0 77 prodBase.price
      ⟨1, "Size", "size", none, none, none, ["S", "M", "L"]⟩).length = 3 :=
  C4_variation_failures_tolerated cfg0 worldVarFail (parseOf prodBase) (reqSigned cfg0 "{}")
    prodBase mdOrigin ⟨"origin_id", "src-1"⟩ [⟨"https://img.example/1.jpg"⟩] 77
    ⟨1, "Size", "size", none, none, none, ["S", "M", "L"]⟩
    rfl rfl rfl rfl (by decide) rfl rfl rfl rfl

/-- With every variation call succeeding, the part_000 loop issues one call
per option, in list order, and reports overall success. -/
theorem Part000.variationLoop_all_ok (world : World) (endpoint rp : String) (attrId : Nat)
    (os : List String) (idx : Nat)
    (hok : ∀ k, ∃ r, world.variationResults k = Except.ok r) :
    Part000.variationLoop world endpoint rp attrId os idx =
      (os.map (fun size => Call.createVariation endpoint
        { regular_price := rp, sale_price := none, attributes := [⟨attrId, size⟩] }), true) := by
  induction os generalizing idx with
  | nil => rfl
  | cons a t ih =>
    obtain ⟨r, hr⟩ := hok idx
    simp only [Part000.variationLoop, hr, List.map_cons]
    rw [ih (idx + 1)]

/-- With a correct signature, a parsed product with images, successful
creation and a size attribute found, and every variation call succeeding,
part_000 issues the creation call followed by one variation call per option
and answers the success envelope. -/
theorem Part000.post_run_vars (cfg : Config) (world : World)
    (jsonParse : String → Option Product) (req : WebhookRequest) (product : Product)
    (imgs : List ImageRef) (pid : Nat) (sizeAttr : WCProductAttribute)
    (h1 : req.signatureHeader = some (hmacSha256Base64 cfg.secret req.rawBody))
    (h2 : jsonParse req.rawBody = some product)
    (h7 : product.images = some imgs)
    (h8 : world.createResult = .ok pid)
    (h9 : (product.attributes.getD []).find? (fun attr => toLowerStr attr.name == "size") =
      some sizeAttr)
    (hok : ∀ k, ∃ r, world.variationResults k = Except.ok r) :
    Part000.POST cfg world jsonParse req =
      (Call.createProduct cfg.wcApiUrl
          (Part000.variableProductPayload product
            (imgs.map (fun image => ({ src := image.src } : ImageRef)))) ::
        sizeAttr.options.map (fun size =>
          Call.createVariation (cfg.wcApiUrl ++ "/" ++ toString pid ++ "/variations")
            { regular_price := product.regular_price.getD "0", sale_price := none,
              attributes := [⟨sizeAttr.id, size⟩] }),
       .ok ⟨200, .created pid "Product and variations created"⟩) := by
  have hrej := (signatureRejected_eq_false_iff _ _
    (hmacSha256Base64_ne_empty cfg.secret req.rawBody)).mpr h1
  simp [Part000.POST, hrej, h2, h7, h8, h9,
    Part000.variationLoop_all_ok world (cfg.wcApiUrl ++ "/" ++ toString pid ++ "/variations")
      (product.regular_price.getD "0") sizeAttr.id sizeAttr.options 0 hok]

/-- C8 counterexample: in part_000 (which the claim also cites through its
variation loop), with a size attribute declaring the three options S, M, L
and the second variation call failing at the transport level, only two
variation calls are issued, so the handler does not issue one
variation-creation call per option. -/
theorem c8_counterexample :
    prodBase.attributes = some [⟨1, "Size", "size", none, none, none, ["S", "M", "L"]⟩] ∧
    variationCallsOf (Part000.POST cfg0 worldVarFail (parseOf prodBase)
        (reqSigned cfg0 "{}")).1 =
      [Call.createVariation (cfg0.wcApiUrl ++ "/" ++ toString 77 ++ "/variations")
         ⟨"0", none, [⟨1, "S"⟩]⟩,
       Call.createVariation (cfg0.wcApiUrl ++ "/" ++ toString 77 ++ "/variations")
         ⟨"0", none, [⟨1, "M"⟩]⟩] ∧
    (["S", "M", "L"] : List String).length ≠ 2 :=
  ⟨rfl, rfl, by decide⟩

/-- C8 (amended): variation creation runs only when the product declares an
attribute whose lowercased name is size: without one, neither cited handler
issues any variation call.  With one found and product creation succeeding,
part_001 issues exactly one variation call per option, in source list order
(the options list mapped in order onto the variations sub-resource), each
document carrying the single attribute selection of the size attribute id
and the option label; part_000 does the same provided every variation call
succeeds — a mid-loop failure there stops the loop, so later options get no
call (see the counterexample). -/
theorem C8_one_call_per_option_amended (cfg : Config) (world : World)
    (jsonParse : String → Option Product) (req : WebhookRequest) (product : Product)
    (md : List MetaEntry) (entry : MetaEntry) (imgs : List ImageRef)
    (h1 : req.signatureHeader = some (hmacSha256Base64 cfg.secret req.rawBody))
    (h2 : jsonParse req.rawBody = some product)
    (h3 : product.meta_data = some md)
    (h4 : md.find? (fun meta => meta.key == "origin_id") = some entry)
    (h5 : entry.value ≠ "")
    (h6 : world.checkResult = .ok [])
    (h7 : product.images = some imgs) :
    ((product.attributes.getD []).find? (fun attr => toLowerStr attr.name == "size") = none →
      variationCallsOf (Part001.POST cfg world jsonParse req).1 = []) ∧
    (∀ (pid : Nat) (sizeAttr : WCProductAttribute),
      world.createResult = .ok pid →
      (product.attributes.getD []).find? (fun attr => toLowerStr attr.name == "size") =
        some sizeAttr →
      variationCallsOf (Part001.POST cfg world jsonParse req).1 =
        sizeAttr.options.map (fun size =>
          Call.createVariation (cfg.wcApiUrl ++ "/" ++ toString pid ++ "/variations")
            (Part001.variationData product.price sizeAttr.id size))) ∧
    (∀ (basePrice : ℚ) (sizeAttrId : Nat) (size : String),
      (Part001.variationData basePrice sizeAttrId size).attributes = [⟨sizeAttrId, size⟩]) ∧
    ((product.attributes.getD []).find? (fun attr => toLowerStr attr.name == "size") = none →
      variationCallsOf (Part000.POST cfg world jsonParse req).1 = []) ∧
    (∀ (pid : Nat) (sizeAttr : WCProductAttribute),
      world.createResult = .ok pid →
      (product.attributes.getD []).find? (fun attr => toLowerStr attr.name == "size") =
        some sizeAttr →
      (∀ k, ∃ r, world.variationResults k = Except.ok r) →
      variationCallsOf (Part000.POST cfg world jsonParse req).1 =
        sizeAttr.options.map (fun size =>
          Call.createVariation (cfg.wcApiUrl ++ "/" ++ toString pid ++ "/variations")
            { regular_price := product.regular_price.getD "0", sale_price := none,
              attributes := [⟨sizeAttr.id, size⟩] })) := by
  have hrej := (signatureRejected_eq_false_iff _ _
    (hmacSha256Base64_ne_empty cfg.secret req.rawBody)).mpr h1
  have hrun : Part001.POST cfg world jsonParse req =
      Part001.createStage cfg world product
        (Part001.variableProductPayload product entry.value
          (imgs.map (fun image => ({ src := image.src } : ImageRef))))
        [Call.checkExisting (cfg.wcApiUrl ++ "?meta_key=origin_id&meta_value=" ++ entry.value)] := by
    rw [Part001.post_sig_ok cfg world jsonParse req product h1 h2,
      Part001.afterParse_run cfg world product md entry h3 h4 h5,
      Part001.checkStage_run cfg world product entry.value imgs h6 h7]
  refine ⟨?_, ?_, fun _ _ _ => rfl, ?_, ?_⟩
  · intro h9
    rw [hrun]
    cases hw : world.createResult with
    | error e => simp [Part001.createStage, hw, variationCallsOf, List.filter]
    | ok pid =>
      rw [Part001.createStage_nosize cfg world product _ _ pid hw h9]
      rfl
  · intro pid sizeAttr hw h9
    rw [hrun, Part001.createStage_run cfg world product _ _ pid sizeAttr hw h9]
    simp only [List.cons_append, List.nil_append]
    rw [Part001.variationCalls]
    simp only [variationCallsOf, List.filter_cons]
    exact variationCallsOf_map_create _ _ _
  · intro h9
    cases hw : world.createResult with
    | error e =>
      simp [Part000.POST, hrej, h2, h7, hw, variationCallsOf, List.filter]
    | ok pid =>
      simp [Part000.POST, hrej, h2, h7, hw, h9, variationCallsOf, List.filter]
  · intro pid sizeAttr hw h9 hok
    rw [Part000.post_run_vars cfg world jsonParse req product imgs pid sizeAttr
      h1 h2 h7 hw h9 hok]
    simp only [variationCallsOf, List.filter_cons]
    exact variationCallsOf_map_create _ _ _

/-- C8 witness: the concrete instantiation of the live branches of both
handlers, with every remote call succeeding. -/
theorem c8_witness :
    variationCallsOf (Part001.POST cfg0 worldEmpty (parseOf prodBase)
        (reqSigned cfg0 "{}")).1 =
      ["S", "M", "L"].map (fun size =>
        Call.createVariation (cfg0.wcApiUrl ++ "/" ++ toString 77 ++ "/variations")
          (Part001.variationData prodBase.price 1 size)) ∧
    variationCallsOf (Part000.POST cfg0 worldEmpty (parseOf prodBase)
        (reqSigned cfg0 "{}")).1 =
      ["S", "M", "L"].map (fun size =>
        Call.createVariation (cfg0.wcApiUrl ++ "/" ++ toString 77 ++ "/variations")
          (⟨"0", none, [⟨1, size⟩]⟩ : VariationData)) ∧
    (Part001.variationData prodBase.price 1 "S").attributes = [⟨1, "S"⟩] :=
  ⟨((C8_one_call_per_option_amended cfg0 worldEmpty (parseOf prodBase) (reqSigned cfg0 "{}")
      prodBase mdOrigin ⟨"origin_id", "src-1"⟩ [⟨"https://img.example/1.jpg"⟩]
      rfl rfl rfl rfl (by decide) rfl rfl).2.1 77
      ⟨1, "Size", "size", none, none, none, ["S", "M", "L"]⟩ rfl rfl),
   ((C8_one_call_per_option_amended cfg0 worldEmpty (parseOf prodBase) (reqSigned cfg0 "{}")
      prodBase mdOrigin ⟨"origin_id", "src-1"⟩ [⟨"https://img.example/1.jpg"⟩]
      rfl rfl rfl rfl (by decide) rfl rfl).2.2.2.2 77
      ⟨1, "Size", "size", none, none, none, ["S", "M", "L"]⟩ rfl rfl
      (fun k => ⟨500, rfl⟩)),
   ((C8_one_call_per_option_amended cfg0 worldEmpty (parseOf prodBase) (reqSigned cfg0 "{}")
      prodBase mdOrigin ⟨"origin_id", "src-1"⟩ [⟨"https://img.example/1.jpg"⟩]
      rfl rfl rfl rfl (by decide) rfl rfl).2.2.1 prodBase.price 1 "S")⟩

/-!
Claim C10: the transmitted meta_data always duplicates the origin_id key.
-/

/-- C10: in the idempotency variant, every product that reaches the creation
step is transmitted with meta_data equal to the source list with one
origin_id entry appended; since the guard only lets products through whose
source list already holds an origin_id entry with a truthy value, the
transmitted list carries the origin_id key at least twice. -/
theorem C10_meta_data_duplicated (cfg : Config) (world : World)
    (jsonParse : String → Option Product) (req : WebhookRequest) (product : Product)
    (md : List MetaEntry) (entry : MetaEntry) (imgs : List ImageRef)
    (h1 : req.signatureHeader = some (hmacSha256Base64 cfg.secret req.rawBody))
    (h2 : jsonParse req.rawBody = some product)
    (h3 : product.meta_data = some md)
    (h4 : md.find? (fun meta => meta.key == "origin_id") = some entry)
    (h5 : entry.value ≠ "")
    (h6 : world.checkResult = .ok [])
    (h7 : product.images = some imgs) :
    Call.createProduct cfg.wcApiUrl
        (Part001.variableProductPayload product entry.value
          (imgs.map (fun image => ({ src := image.src } : ImageRef)))) ∈
      (Part001.POST cfg world jsonParse req).1 ∧
    (Part001.variableProductPayload product entry.value
        (imgs.map (fun image => ({ src := image.src } : ImageRef)))).meta_data =
      some (md ++ [⟨"origin_id", entry.value⟩]) ∧
    2 ≤ List.countP (fun meta => meta.key == "origin_id")
        (md ++ [(⟨"origin_id", entry.value⟩ : MetaEntry)]) := by
  refine ⟨?_, ?_, ?_⟩
  · rw [Part001.post_sig_ok cfg world jsonParse req product h1 h2,
      Part001.afterParse_run cfg world product md entry h3 h4 h5,
      Part001.checkStage_run cfg world product entry.value imgs h6 h7]
    exact Part001.createProduct_mem_createStage cfg world product _ _
  · simp [Part001.variableProductPayload, h3]
  · rw [List.countP_append]
    have hpos : 0 < md.countP (fun meta => meta.key == "origin_id") :=
      List.countP_pos_iff.mpr ⟨entry, List.mem_of_find?_eq_some h4,
        by simpa using List.find?_some h4⟩
    have hone : List.countP (fun meta => meta.key == "origin_id")
        [(⟨"origin_id", entry.value⟩ : MetaEntry)] = 1 := rfl
    omega

/-- C10 witness: the concrete run in which the transmitted meta_data holds
the origin_id key twice. -/
theorem c10_witness :
    Call.createProduct cfg0.wcApiUrl
        (Part001.variableProductPayload prodBase "src-1" [⟨"https://img.example/1.jpg"⟩]) ∈
      (Part001.POST cfg0 worldEmpty (parseOf prodBase) (reqSigned cfg0 "{}")).1 ∧
    (Part001.variableProductPayload prodBase "src-1"
        [⟨"https://img.example/1.jpg"⟩]).meta_data =
      some (mdOrigin ++ [⟨"origin_id", "src-1"⟩]) ∧
    2 ≤ List.countP (fun meta => meta.key == "origin_id")
        (mdOrigin ++ [(⟨"origin_id", "src-1"⟩ : MetaEntry)]) :=
  C10_meta_data_duplicated cfg0 worldEmpty (parseOf prodBase) (reqSigned cfg0 "{}")
    prodBase mdOrigin ⟨"origin_id", "src-1"⟩ [⟨"https://img.example/1.jpg"⟩]
    rfl rfl rfl rfl (by decide) rfl rfl
